import Mathlib

/-!
Verification development for the domain-checker repository.

The TypeScript sources are shallowly embedded as pure Lean functions:
* `Deno.Kv`-backed state (rate-limit state, TLD cache) becomes explicit
  state passing (`Option RateLimitState`, `Option (List String)`);
* `Date.now()` becomes an explicit `now : Nat` argument (Unix ms);
* `fetch`/`response.json()` become explicit outcome parameters: a call either
  throws (network error) or yields a response with a status code and a body
  whose JSON parse either succeeds or throws;
* JS numbers holding prices are modelled as exact rationals (`Rat`); the
  decimal strings Porkbun sends are modelled as already-parsed rationals,
  so `parseFloat` on them is the identity under this modelling;
* `async` functions are ordinary functions; the backoff sleep has no
  observable effect in the model beyond the (read-only) `getWaitTime` call.
-/

/-! ## lib/kv.ts — rate-limit guard -/

/-- `INITIAL_BACKOFF_MS = 1000` (kv.ts). -/
def INITIAL_BACKOFF_MS : Nat := 1000

/-- `MAX_BACKOFF_MS = 300000` (kv.ts). -/
def MAX_BACKOFF_MS : Nat := 300000

/-- `BACKOFF_MULTIPLIER = 2` (kv.ts). -/
def BACKOFF_MULTIPLIER : Nat := 2

/-- `RateLimitState` (kv.ts): timestamps are Unix milliseconds. -/
structure RateLimitState where
  failureCount : Nat
  nextRetryAfter : Nat
  lastFailureTime : Nat
deriving Repr, DecidableEq

/-- `currentState?.failureCount || 0` (kv.ts line 37). -/
def storedFailureCount : Option RateLimitState → Nat
  | none => 0
  | some s => s.failureCount

/-- `recordFailure` (kv.ts): given the stored state for the provider and the
current time, returns the new state together with the `expireIn` value passed
to `kv.set`. -/
def recordFailure (st : Option RateLimitState) (now : Nat) :
    RateLimitState × Nat :=
  let failureCount := storedFailureCount st + 1
  let backoffDelay :=
    min (INITIAL_BACKOFF_MS * BACKOFF_MULTIPLIER ^ (failureCount - 1))
      MAX_BACKOFF_MS
  (⟨failureCount, now + backoffDelay, now⟩, MAX_BACKOFF_MS * 2)

/-- `recordSuccess` (kv.ts): deletes the stored state unconditionally. -/
def recordSuccess (_st : Option RateLimitState) : Option RateLimitState :=
  none

/-- `getWaitTime` (kv.ts): `max(0, nextRetryAfter - now)`, `0` when no state
is stored. -/
def getWaitTime (st : Option RateLimitState) (now : Nat) : Int :=
  match st with
  | none => 0
  | some s => max 0 ((s.nextRetryAfter : Int) - (now : Int))

/-- `k` consecutive `recordFailure` calls (no intervening success), the `i`-th
call happening at time `times i`, starting from stored state `st`. -/
def iterateFailures : Nat → (Nat → Nat) → Option RateLimitState →
    Option RateLimitState
  | 0, _, st => st
  | n + 1, times, st =>
      some (recordFailure (iterateFailures n times st) (times n)).1

theorem iterateFailures_count (k : Nat) (times : Nat → Nat) :
    storedFailureCount (iterateFailures k times none) = k := by
  induction k with
  | zero => rfl
  | succ n ih =>
      simp only [iterateFailures, recordFailure, storedFailureCount]
      simp [storedFailureCount] at ih
      omega

/-! ## lib/types.ts — common result shape

Embedded from "Shared interfaces for domain availability checking"
(lib/types.ts, provided in src/unnamed/part_003). That provided revision
accompanies the Domainr-based revision of the bot, and it types the
`provider` field with the string-literal type `"domainr"`. The Porkbun and
Cloudflare clients among the sources belong to revisions of the repository
whose own types.ts (not provided) admitted their provider strings — they
construct results with `provider: "porkbun"` / `"cloudflare"`. A TypeScript
string-literal type is a static refinement of `string`; its runtime values
are plain strings, so the field is carried here at that underlying type
`String`, and `domainrCheck_provider_literal` (below, with the theorems)
proves that the Domainr client — the client the provided types.ts revision
accompanies — only ever constructs results satisfying the `"domainr"`
literal type. -/

/-- `PricingInfo` (lib/types.ts, src/unnamed/part_003): `registration` and
`renewal` prices, optional first-year discount price, currency code. The
`number` fields are modelled as exact rationals. -/
structure PricingInfo where
  registration : Rat
  renewal : Rat
  firstYear : Option Rat := none
  currency : String
deriving Repr, DecidableEq

/-- `DomainCheckResult` (lib/types.ts, src/unnamed/part_003): `provider`
holds the runtime string underlying the per-revision provider literal types
(`"domainr"` in the provided types.ts revision; see the section comment
above). -/
structure DomainCheckResult where
  domain : String
  available : Bool
  provider : String
  pricing : Option PricingInfo := none
  error : Option String := none
deriving Repr, DecidableEq

/-! ## lib/utils.ts — domain helpers and price formatting -/

/-- Splits a character list at every character satisfying `p`, keeping empty
fragments (the semantics of JS `String.prototype.split` with a single-character
separator). Structurally recursive so that it evaluates by kernel reduction. -/
def splitByPred (p : Char → Bool) : List Char → List (List Char)
  | [] => [[]]
  | c :: cs =>
      let rest := splitByPred p cs
      if p c then [] :: rest
      else
        match rest with
        | [] => [[c]]
        | w :: ws => (c :: w) :: ws

/-- JS `domain.split(".")`. -/
def jsSplitDot (s : String) : List String :=
  (splitByPred (· == '.') s.data).map String.mk

/-- JS `s.toLowerCase()` (character-wise, as for the ASCII statuses used). -/
def toLowerStr (s : String) : String :=
  String.mk (s.data.map Char.toLower)

/-- The `multiPartTLDs` allow-list inside `extractTLD` (utils.ts). -/
def multiPartTLDs : List String := ["co.uk", "co.jp", "com.au", "co.nz", "co.za"]

/-- `parts.slice(-2).join(".")` for a split domain. -/
def lastTwoJoined (parts : List String) : String :=
  String.intercalate "." (parts.drop (parts.length - 2))

/-- `parts[parts.length - 1]` (JS indexing on the split result). -/
def lastPart (parts : List String) : String :=
  parts.getD (parts.length - 1) ""

/-- `extractTLD` (utils.ts): rightmost label, with the fixed two-level
allow-list taking precedence when the domain has at least three labels. -/
def extractTLD (domain : String) : String :=
  let parts := jsSplitDot domain
  if 3 ≤ parts.length then
    let lastTwo := lastTwoJoined parts
    if multiPartTLDs.contains lastTwo then lastTwo
    else lastPart parts
  else lastPart parts

/-- Does the character list begin with the given pattern? (helper for the JS
`String.prototype.includes` model). -/
def leadsWith : List Char → List Char → Bool
  | [], _ => true
  | _ :: _, [] => false
  | p :: ps, c :: cs => p == c && leadsWith ps cs

/-- Does the character list contain the pattern as a contiguous segment? -/
def hasSegment (pat : List Char) : List Char → Bool
  | [] => leadsWith pat []
  | c :: s => leadsWith pat (c :: s) || hasSegment pat s

/-- JS `s.includes(pat)`: substring test. -/
def strContains (s pat : String) : Bool :=
  hasSegment pat.data s.data

/-- JS `Number.prototype.toFixed(2)` for the nonnegative exact rationals used
as prices: round to cents and render with exactly two decimals. -/
def toFixed2 (q : Rat) : String :=
  -- round(q * 100) computed on the numerator/denominator so that the
  -- definition evaluates by kernel reduction: floor(q*100 + 1/2).
  let cents := ((200 * q.num + (q.den : Int)) / (2 * (q.den : Int))).toNat
  let ip := cents / 100
  let fp := cents % 100
  toString ip ++ "." ++ (if fp < 10 then "0" else "") ++ toString fp

/-- `formatPrice` (utils.ts): renders `renewal / yr`, appending the first-year
price when it is truthy (nonzero) and differs from the renewal price, then the
provider tag. -/
def formatPrice (pricing : PricingInfo) (provider : String) : String :=
  let renewalPrice := toFixed2 pricing.renewal
  let currency := if pricing.currency = "USD" then "$" else pricing.currency
  let priceText := currency ++ renewalPrice ++ " / yr"
  let priceText :=
    match pricing.firstYear with
    | some fy =>
        -- `if (pricing.firstYear && pricing.firstYear !== pricing.renewal)`:
        -- JS truthiness makes a 0 first-year price falsy.
        if fy ≠ 0 ∧ fy ≠ pricing.renewal then
          priceText ++ " (" ++ currency ++ toFixed2 fy ++ " first year)"
        else priceText
    | none => priceText
  priceText ++ " (" ++ provider ++ ")"

/-- The claim's reading of TLD extraction, stated from its words: the
rightmost dot-separated label, except when the domain has at least three
labels and its last two labels joined with a dot are in the fixed allow-list,
in which case that two-label string is returned. -/
def extractTLDSpec (domain : String) : String :=
  let parts := jsSplitDot domain
  if 3 ≤ parts.length ∧ lastTwoJoined parts ∈ multiPartTLDs then
    lastTwoJoined parts
  else lastPart parts

/-- C8: `extractTLD` agrees with the claim's description on every domain
string. -/
theorem extractTLD_spec (domain : String) :
    extractTLD domain = extractTLDSpec domain := by
  simp only [extractTLD, extractTLDSpec]
  by_cases h3 : 3 ≤ (jsSplitDot domain).length
  · by_cases hm : lastTwoJoined (jsSplitDot domain) ∈ multiPartTLDs
    · simp [h3, hm]
    · simp [h3, hm]
  · simp [h3]

/-! ## HTTP model shared by the provider clients

A `fetch` call either throws (network error) or yields a response carrying a
status code, a status text and a body; `response.json()` on that body either
yields a parsed value or throws, hence `Except String β`. -/

/-- A received HTTP response: status code, status text and the outcome of
parsing its JSON body. -/
structure HttpPayload (β : Type) where
  status : Nat
  statusText : String
  body : Except String β
deriving Repr

/-- JS `Response.ok`: status in the 2xx range. -/
def HttpPayload.isOk {β : Type} (r : HttpPayload β) : Bool :=
  200 ≤ r.status && r.status < 300

/-- Outcome of one `fetch` call: a network-level throw or a response. -/
inductive FetchOutcome (β : Type) where
  | thrown (msg : String)
  | resp (r : HttpPayload β)
deriving Repr

/-! ## lib/domainr.ts — Domainr client with retry wrapper -/

/-- `MAX_RETRIES = 3` (domainr.ts): up to 3 retries, 4 attempts total. -/
def MAX_RETRIES : Nat := 3

/-- `RATE_LIMIT_STATUS_CODES = [429]` (domainr.ts). -/
def RATE_LIMIT_STATUS_CODES : List Nat := [429]

/-- One entry of the `status` array in a Domainr status response. -/
structure DomainrStatus where
  domain : String
  zone : Option String := none
  status : String
  summary : String
deriving Repr, DecidableEq

/-- Parsed Domainr status response body; `status` is `none` when the field is
missing from the JSON. -/
structure DomainrStatusResponse where
  status : Option (List DomainrStatus)
deriving Repr

/-- `STATUS_AVAILABILITY_MAP` (domainr.ts), as the association list of its
record entries. -/
def STATUS_AVAILABILITY_MAP : List (String × Bool) :=
  [("inactive", true),
   ("undelegated", true),
   ("undelegated inactive", true),
   ("active", false),
   ("claimed", false),
   ("parked", false),
   ("premium", false),
   ("reserved", false),
   ("expiring", false)]

/-- `STATUS_AVAILABILITY_MAP[key]`: record access, `none` when absent. -/
def statusMapLookup (key : String) : Option Bool :=
  STATUS_AVAILABILITY_MAP.lookup key

/-- The `for (const word of statusWords)` loop (domainr.ts lines 167-173):
the mapping of the first word present in the map, if any. -/
def firstWordMatch : List String → Option Bool
  | [] => none
  | w :: ws =>
      match statusMapLookup w with
      | some b => some b
      | none => firstWordMatch ws

/-- `statusKey.split(/\s+/)`: split on whitespace. (The regex collapses
whitespace runs; the extra empty-string fragments produced here are never map
keys, so the first resolved word is unchanged.) -/
def splitWhitespace (s : String) : List String :=
  (splitByPred Char.isWhitespace s.data).map String.mk

/-- Availability determination of domainr.ts lines 160-174 applied to a raw
status string: exact lowercased match first, then the first matching
whitespace-separated word. -/
def domainrClassify (status : String) : Option Bool :=
  let statusKey := toLowerStr status
  match statusMapLookup statusKey with
  | some b => some b
  | none => firstWordMatch (splitWhitespace statusKey)

/-- The retry loop body of `makeRequest` (domainr.ts lines 61-126), from call
index `i` with `retriesLeft` retries remaining. `script i` is the outcome of
the `i`-th `fetch`. Returns the thrown-or-returned response, the final stored
rate-limit state and the number of `fetch` calls made. -/
def makeRequestFrom (script : Nat → FetchOutcome DomainrStatusResponse)
    (now : Nat) :
    Nat → Nat → Option RateLimitState →
    (Except String (HttpPayload DomainrStatusResponse) ×
      Option RateLimitState × Nat)
  | i, retriesLeft, st =>
    -- `getWaitTime` then the backoff sleep: read-only, no observable effect
    -- in this model.
    let _wait := getWaitTime st now
    match script i with
    | .thrown msg =>
        -- network error: `recordFailure`, then retry unless attempts are
        -- exhausted, in which case throw the last error.
        let st1 := some (recordFailure st now).1
        match retriesLeft with
        | 0 => (.error msg, st1, 1)
        | r + 1 =>
            let out := makeRequestFrom script now (i + 1) r st1
            (out.1, out.2.1, out.2.2 + 1)
    | .resp resp =>
        if RATE_LIMIT_STATUS_CODES.contains resp.status then
          -- rate limited: `recordFailure`; retry if attempts remain,
          -- otherwise return the failed response as-is.
          let st1 := some (recordFailure st now).1
          match retriesLeft with
          | 0 => (.ok resp, st1, 1)
          | r + 1 =>
              let out := makeRequestFrom script now (i + 1) r st1
              (out.1, out.2.1, out.2.2 + 1)
        else if resp.isOk then
          -- success: clear any rate limit state and return.
          (.ok resp, recordSuccess st, 1)
        else
          -- any other failure status: return the response untouched.
          (.ok resp, st, 1)

/-- `makeRequest` (domainr.ts): the loop starting at attempt 0 with
`MAX_RETRIES` retries remaining. -/
def makeRequest (script : Nat → FetchOutcome DomainrStatusResponse)
    (now : Nat) (st : Option RateLimitState) :
    Except String (HttpPayload DomainrStatusResponse) ×
      Option RateLimitState × Nat :=
  makeRequestFrom script now 0 MAX_RETRIES st

/-- The body of the `try` block of `DomainrDomainChecker.checkAvailability`
(domainr.ts lines 133-192), applied to the thrown-or-returned outcome of
`makeRequest`: `Except.error` is a throw that the surrounding `catch` will
convert. -/
def interpretDomainrResponse (domain : String)
    (res : Except String (HttpPayload DomainrStatusResponse)) :
    Except String DomainCheckResult :=
  match res with
  | .error e => .error e
  | .ok response =>
    if ¬ response.isOk then
      .error ("HTTP " ++ toString response.status ++ ": " ++
        response.statusText)
    else
      match response.body with
      | .error e => .error e
      | .ok data =>
        match data.status with
        | none => .error "Missing status data from Domainr API"
        | some [] => .error "Missing status data from Domainr API"
        | some (domainStatus :: _) =>
          match domainrClassify domainStatus.status with
          | none =>
              -- unknown status: treat as unavailable, not a throw.
              .ok ⟨domain, false, "domainr", none,
                some ("Unknown status: " ++ domainStatus.status)⟩
          | some available =>
              .ok ⟨domain, available, "domainr", none, none⟩

/-- The `try` block of `DomainrDomainChecker.checkAvailability` together with
the state and call count of its `makeRequest`. -/
def domainrCheckCore (domain : String)
    (script : Nat → FetchOutcome DomainrStatusResponse)
    (st : Option RateLimitState) (now : Nat) :
    Except String DomainCheckResult × Option RateLimitState × Nat :=
  let out := makeRequest script now st
  (interpretDomainrResponse domain out.1, out.2.1, out.2.2)

/-- `DomainrDomainChecker.checkAvailability` (domainr.ts): the `catch` turns
any throw into `{available: false, error: message}`. -/
def domainrCheckAvailability (domain : String)
    (script : Nat → FetchOutcome DomainrStatusResponse)
    (st : Option RateLimitState) (now : Nat) :
    DomainCheckResult × Option RateLimitState × Nat :=
  let out := domainrCheckCore domain script st now
  (match out.1 with
   | .ok result => result
   | .error e => ⟨domain, false, "domainr", none, some e⟩,
   out.2.1, out.2.2)

/-- `DomainrDomainChecker.getSupportedTLDs` (domainr.ts): always the empty
list. -/
def domainrGetSupportedTLDs : List String := []

/-! ## lib/porkbun.ts — Porkbun client (current revision, `checkDomain`
endpoint)

`getSupportedTLDs` (cache plus pricing-endpoint fetch) is summarised by its
returned value: `checkAvailability` below takes the `supported` list it would
produce. The call count returned counts calls to the availability endpoint
only. Decimal price strings are modelled as already-parsed rationals. -/

/-- JS `s || "Unknown error"` on an optional string: `undefined` and the
empty string are falsy. -/
def jsStringOr (s : Option String) (dflt : String) : String :=
  match s with
  | none => dflt
  | some v => if v = "" then dflt else v

/-- One price block (`renewal` / `transfer` under `additional`). -/
structure PorkbunPriceBlock where
  type : String
  price : Rat
  regularPrice : Rat
deriving Repr, DecidableEq

/-- The `additional` object of a Porkbun `checkDomain` response. -/
structure PorkbunAdditional where
  renewal : PorkbunPriceBlock
  transfer : PorkbunPriceBlock
deriving Repr, DecidableEq

/-- The `response` object of a Porkbun `checkDomain` response. -/
structure PorkbunResponseData where
  avail : String
  type : String
  price : Rat
  regularPrice : Rat
  firstYearPromo : String
  premium : String
  additional : Option PorkbunAdditional := none
deriving Repr, DecidableEq

/-- A parsed Porkbun `checkDomain` response body. -/
structure PorkbunAvailabilityResponse where
  status : String
  message : Option String := none
  response : Option PorkbunResponseData := none
deriving Repr

/-- The `try` block of `PorkbunDomainChecker.checkAvailability` (porkbun.ts),
with the availability-endpoint call count. -/
def porkbunCheckCore (domain : String) (supported : List String)
    (outcome : FetchOutcome PorkbunAvailabilityResponse) :
    Except String DomainCheckResult × Nat :=
  let tld := extractTLD domain
  if ¬ supported.contains tld then
    (.ok ⟨domain, false, "porkbun", none, some "TLD not supported by Porkbun"⟩,
      0)
  else
    match outcome with
    | .thrown msg => (.error msg, 1)
    | .resp response =>
      if ¬ response.isOk then
        (.error ("HTTP " ++ toString response.status ++ ": " ++
          response.statusText), 1)
      else
        match response.body with
        | .error e => (.error e, 1)
        | .ok data =>
          if data.status = "ERROR" then
            (.error (jsStringOr data.message "Unknown error"), 1)
          else
            match data.response with
            | none => (.error "Missing response data from Porkbun API", 1)
            | some resp =>
              if resp.avail = "no" then
                (.ok ⟨domain, false, "porkbun", none, none⟩, 1)
              else if resp.avail = "yes" then
                let firstYearPrice := resp.price
                let regularPrice := resp.regularPrice
                let renewalPrice :=
                  match resp.additional with
                  | some a => a.renewal.price
                  | none => regularPrice
                (.ok ⟨domain, true, "porkbun",
                  some ⟨regularPrice, renewalPrice,
                    if resp.firstYearPromo = "yes" then some firstYearPrice
                    else none,
                    "USD"⟩, none⟩, 1)
              else
                (.error ("Unexpected availability status: " ++ resp.avail), 1)

/-- `PorkbunDomainChecker.checkAvailability` (porkbun.ts): the `catch` turns
any throw into `{available: false, error: message}`. -/
def porkbunCheckAvailability (domain : String) (supported : List String)
    (outcome : FetchOutcome PorkbunAvailabilityResponse) :
    DomainCheckResult × Nat :=
  let out := porkbunCheckCore domain supported outcome
  (match out.1 with
   | .ok result => result
   | .error e => ⟨domain, false, "porkbun", none, some e⟩,
   out.2)

/-! ## lib/cloudflare.ts — Cloudflare Registrar client

This client never inspects `response.ok`; a network throw and a JSON-parse
throw both surface as the same thrown error, so each call's outcome is just
`Except String (CloudflareResponse _)`. The call count counts calls to the
availability endpoint only. -/

/-- One entry of the `errors` array of a Cloudflare API envelope. -/
structure CloudflareError where
  code : Nat
  message : String
deriving Repr, DecidableEq

/-- The Cloudflare API response envelope. -/
structure CloudflareResponse (T : Type) where
  success : Bool
  errors : List CloudflareError
  result : Option T := none
deriving Repr

/-- `data.errors?.[0]?.message || "Unknown error"`. -/
def cloudflareErrMsg (errors : List CloudflareError) : String :=
  jsStringOr (errors.head?.map (·.message)) "Unknown error"

/-- The `result` object of the Cloudflare availability endpoint. -/
structure CloudflareAvailabilityResult where
  available : Bool
  supported_tld : Bool
deriving Repr, DecidableEq

/-- The `result` object of the Cloudflare pricing endpoint. -/
structure CloudflarePricingResult where
  registration_price : Rat
  renewal_price : Rat
  transfer_price : Rat
deriving Repr, DecidableEq

/-- The `try` block of `CloudflareDomainChecker.checkAvailability`, with the
availability-endpoint call count. The pricing call is consumed only when the
availability call reports the domain available. -/
def cloudflareCheckCore (domain : String) (supported : List String)
    (availOutcome : Except String (CloudflareResponse CloudflareAvailabilityResult))
    (pricingOutcome : Except String (CloudflareResponse CloudflarePricingResult)) :
    Except String DomainCheckResult × Nat :=
  let tld := extractTLD domain
  if ¬ supported.contains tld then
    (.ok ⟨domain, false, "cloudflare", none,
      some "TLD not supported by Cloudflare"⟩, 0)
  else
    match availOutcome with
    | .error msg => (.error msg, 1)
    | .ok availabilityData =>
      if ¬ availabilityData.success then
        (.error (cloudflareErrMsg availabilityData.errors), 1)
      else
        match availabilityData.result with
        | none => (.error (cloudflareErrMsg availabilityData.errors), 1)
        | some availResult =>
          if ¬ availResult.available then
            (.ok ⟨domain, false, "cloudflare", none, none⟩, 1)
          else
            match pricingOutcome with
            | .error msg => (.error msg, 1)
            | .ok pricingData =>
              if ¬ pricingData.success then
                (.error (cloudflareErrMsg pricingData.errors), 1)
              else
                match pricingData.result with
                | none => (.error (cloudflareErrMsg pricingData.errors), 1)
                | some pricing =>
                  (.ok ⟨domain, true, "cloudflare",
                    some ⟨pricing.registration_price, pricing.renewal_price,
                      none, "USD"⟩, none⟩, 1)

/-- `CloudflareDomainChecker.checkAvailability`: the `catch` turns any throw
into `{available: false, error: message}`. -/
def cloudflareCheckAvailability (domain : String) (supported : List String)
    (availOutcome : Except String (CloudflareResponse CloudflareAvailabilityResult))
    (pricingOutcome : Except String (CloudflareResponse CloudflarePricingResult)) :
    DomainCheckResult × Nat :=
  let out := cloudflareCheckCore domain supported availOutcome pricingOutcome
  (match out.1 with
   | .ok result => result
   | .error e => ⟨domain, false, "cloudflare", none, some e⟩,
   out.2)

/-! ## webhook.ts — result formatting -/

/-- `provider.charAt(0).toUpperCase() + provider.slice(1)`. -/
def capitalizeFirst (s : String) : String :=
  match s.data with
  | [] => s
  | c :: cs => String.mk (c.toUpper :: cs)

/-- JS truthiness of `result.error`: set and nonempty. -/
def jsTruthyOptStr : Option String → Bool
  | none => false
  | some s => s ≠ ""

/-- `formatResult` (webhook.ts lines 38-63). -/
def formatResult (result : DomainCheckResult) : String :=
  if jsTruthyOptStr result.error then
    let err := result.error.getD ""
    if strContains err "not supported" then
      "Error: The domain \"" ++ result.domain ++
        "\" uses a TLD that is not supported by Porkbun."
    else "Error: " ++ err
  else if ¬ result.available then
    result.domain ++ " is not available."
  else
    match result.pricing with
    | none => result.domain ++ " is available!"
    | some pricing =>
        let providerName := capitalizeFirst result.provider
        result.domain ++ " is available!\n" ++ formatPrice pricing providerName

/-- C1: `recordFailure` called `k+1` times consecutively from a clean state
yields a stored state with `failureCount = k+1` and
`nextRetryAfter - lastFailureTime = min (1000 * 2^k) 300000`, and every
`recordFailure` persists with expiry `2 * 300000` ms. -/
theorem recordFailure_backoff :
    (∀ (k : Nat) (times : Nat → Nat), ∃ s : RateLimitState,
      iterateFailures (k + 1) times none = some s ∧
      s.failureCount = k + 1 ∧
      s.nextRetryAfter - s.lastFailureTime = min (1000 * 2 ^ k) 300000) ∧
    (∀ (st : Option RateLimitState) (now : Nat),
      (recordFailure st now).2 = 2 * 300000) := by
  constructor
  · intro k times
    refine ⟨(recordFailure (iterateFailures k times none) (times k)).1,
      rfl, ?_, ?_⟩
    · simp only [recordFailure]
      have h := iterateFailures_count k times
      omega
    · simp only [recordFailure]
      have h := iterateFailures_count k times
      simp only [h, INITIAL_BACKOFF_MS, BACKOFF_MULTIPLIER, MAX_BACKOFF_MS,
        Nat.add_sub_cancel]
      omega
  · intro st now
    rfl

/-- Helper: `checkAvailability` on a single OK response carrying one status
entry reduces to the classification of that entry's status string. -/
theorem domainrCheck_singleResponse (domain status summary : String)
    (st : Option RateLimitState) (now : Nat) :
    domainrCheckAvailability domain
      (fun _ => .resp ⟨200, "OK", .ok ⟨some [⟨domain, none, status, summary⟩]⟩⟩)
      st now =
    ((match domainrClassify status with
      | none => ⟨domain, false, "domainr", none,
          some ("Unknown status: " ++ status)⟩
      | some available => ⟨domain, available, "domainr", none, none⟩),
      none, 1) := by
  cases h : domainrClassify status with
  | none =>
      simp [domainrCheckAvailability, domainrCheckCore, makeRequest,
        MAX_RETRIES, makeRequestFrom, interpretDomainrResponse, h,
        RATE_LIMIT_STATUS_CODES, HttpPayload.isOk, recordSuccess]
  | some b =>
      simp [domainrCheckAvailability, domainrCheckCore, makeRequest,
        MAX_RETRIES, makeRequestFrom, interpretDomainrResponse, h,
        RATE_LIMIT_STATUS_CODES, HttpPayload.isOk, recordSuccess]

/-- Helper: the word loop is the first word whose lookup succeeds. -/
theorem firstWordMatch_eq_findSome (l : List String) :
    firstWordMatch l = l.findSome? statusMapLookup := by
  induction l with
  | nil => rfl
  | cons w ws ih =>
      simp only [firstWordMatch, List.findSome?]
      cases statusMapLookup w <;> simp [ih]

/-- The claim's resolution precedence, stated from its words: (a) exact match
of the full lowercased status string against the known map; (b) otherwise the
mapping of the first whitespace-separated word present in the map. -/
def resolveStatusSpec (status : String) : Option Bool :=
  match statusMapLookup (toLowerStr status) with
  | some b => some b
  | none => (splitWhitespace (toLowerStr status)).findSome? statusMapLookup

/-- C3: the code's status classification follows the claim's precedence, and
an unresolved status yields `available = false` with the literal status string
in `error` rather than a thrown failure. -/
theorem domainr_status_resolution :
    (∀ status : String, domainrClassify status = resolveStatusSpec status) ∧
    (∀ (domain status summary : String) (st : Option RateLimitState)
        (now : Nat),
      domainrClassify status = none →
      domainrCheckAvailability domain
        (fun _ =>
          .resp ⟨200, "OK", .ok ⟨some [⟨domain, none, status, summary⟩]⟩⟩)
        st now =
      (⟨domain, false, "domainr", none,
        some ("Unknown status: " ++ status)⟩, none, 1)) := by
  constructor
  · intro status
    simp only [domainrClassify, resolveStatusSpec]
    cases statusMapLookup (toLowerStr status) <;>
      simp [firstWordMatch_eq_findSome]
  · intro domain status summary st now h
    rw [domainrCheck_singleResponse, h]

/-- Witness for C3: the made-up status "pending gibberish" resolves neither
exactly nor by word, and surfaces verbatim in the error field. -/
theorem domainr_status_resolution_witness :
    domainrCheckAvailability "example.com"
      (fun _ => .resp ⟨200, "OK",
        .ok ⟨some [⟨"example.com", none, "pending gibberish", "pending"⟩]⟩⟩)
      none 0 =
    (⟨"example.com", false, "domainr", none,
      some "Unknown status: pending gibberish"⟩, none, 1) :=
  domainr_status_resolution.2 "example.com" "pending gibberish" "pending"
    none 0 (by decide)

/-- C5: with the upstream answering 429 on the first two calls and 200 with a
well-formed body on the third, `checkAvailability` succeeds, the stored
rate-limit state ends cleared, and exactly 3 HTTP calls are made. -/
theorem domainr_retry_scenario (domain : String) (now : Nat) :
    domainrCheckAvailability domain
      (fun i =>
        if i < 2 then .resp ⟨429, "Too Many Requests", .error "rate limited"⟩
        else .resp ⟨200, "OK",
          .ok ⟨some [⟨domain, none, "undelegated inactive", "undelegated"⟩]⟩⟩)
      none now =
    (⟨domain, true, "domainr", none, none⟩, none, 3) := rfl

/-- C10: at any attempt of the retry wrapper, a response whose status is
neither a 2xx success nor 429 is returned to the caller immediately: exactly
one further HTTP call is made, no retry follows, and the stored rate-limit
state is left exactly as it was (neither `recordFailure` nor `recordSuccess`
runs). `makeRequest` itself is the `i = 0`, `retriesLeft = MAX_RETRIES`
instance. -/
theorem makeRequest_passthrough_other_status
    (script : Nat → FetchOutcome DomainrStatusResponse) (now : Nat)
    (i retriesLeft : Nat) (st : Option RateLimitState)
    (resp : HttpPayload DomainrStatusResponse)
    (hresp : script i = .resp resp)
    (hok : resp.isOk = false)
    (hrl : resp.status ≠ 429) :
    makeRequestFrom script now i retriesLeft st = (.ok resp, st, 1) := by
  rw [makeRequestFrom.eq_def]
  simp only [hresp]
  simp [RATE_LIMIT_STATUS_CODES, hrl, hok]

/-- Witness for C10: a 500 response on the first attempt is handed back with
one call made and the state untouched. -/
theorem makeRequest_passthrough_other_status_witness :
    makeRequestFrom
      (fun _ => .resp ⟨500, "Internal Server Error", .error "unread body"⟩)
      0 0 3 (some ⟨2, 2000, 0⟩) =
    (.ok ⟨500, "Internal Server Error", .error "unread body"⟩,
      some ⟨2, 2000, 0⟩, 1) :=
  makeRequest_passthrough_other_status _ 0 0 3 (some ⟨2, 2000, 0⟩)
    ⟨500, "Internal Server Error", .error "unread body"⟩ rfl rfl (by decide)

/-- Helper: the retry wrapper always performs at least one HTTP call. -/
theorem makeRequestFrom_calls_pos
    (script : Nat → FetchOutcome DomainrStatusResponse) (now : Nat) :
    ∀ (i retriesLeft : Nat) (st : Option RateLimitState),
      1 ≤ (makeRequestFrom script now i retriesLeft st).2.2 := by
  intro i retriesLeft st
  rw [makeRequestFrom.eq_def]
  cases hs : script i with
  | thrown msg => cases retriesLeft <;> simp [hs]
  | resp resp =>
      by_cases h : resp.status ∈ RATE_LIMIT_STATUS_CODES
      · cases retriesLeft <;> simp [hs, h]
      · by_cases hok : resp.isOk <;> simp [hs, h, hok]

/-- C7: Domainr's `getSupportedTLDs` is always the empty list; its
`checkAvailability` has no TLD-support short-circuit (the availability request
is issued for every domain) and, on a clean upstream answer, returns no error
for any domain whatsoever, so no "TLD not supported" error can arise. -/
theorem domainr_no_tld_gate :
    domainrGetSupportedTLDs = ([] : List String) ∧
    (∀ (domain : String) (script : Nat → FetchOutcome DomainrStatusResponse)
        (st : Option RateLimitState) (now : Nat),
      1 ≤ (domainrCheckAvailability domain script st now).2.2) ∧
    (∀ (domain : String) (st : Option RateLimitState) (now : Nat),
      domainrCheckAvailability domain
        (fun _ => .resp ⟨200, "OK",
          .ok ⟨some [⟨domain, none, "undelegated", "undelegated"⟩]⟩⟩)
        st now =
      (⟨domain, true, "domainr", none, none⟩, none, 1)) := by
  refine ⟨rfl, ?_, ?_⟩
  · intro domain script st now
    exact makeRequestFrom_calls_pos script now 0 MAX_RETRIES st
  · intro domain st now
    rw [domainrCheck_singleResponse]
    rfl

/-- C2: `checkAvailability` is total and converts every failure mode into a
result with `available = false` and `error` set to the failure message:
(1, 2) the catch-all on the `try` block, for the Domainr and Porkbun clients;
(3) a non-2xx, non-429 HTTP response (Domainr); (4) a malformed payload
(Domainr); (5) an explicit provider error status (Porkbun); (6) a network
error exhausting all retries (Domainr); (7) a thrown network error
(Porkbun). -/
theorem checkAvailability_total :
    (∀ (domain : String) (script : Nat → FetchOutcome DomainrStatusResponse)
        (st : Option RateLimitState) (now : Nat) (e : String)
        (st1 : Option RateLimitState) (n : Nat),
      domainrCheckCore domain script st now = (.error e, st1, n) →
      domainrCheckAvailability domain script st now =
        (⟨domain, false, "domainr", none, some e⟩, st1, n)) ∧
    (∀ (domain : String) (supported : List String)
        (outcome : FetchOutcome PorkbunAvailabilityResponse) (e : String)
        (n : Nat),
      porkbunCheckCore domain supported outcome = (.error e, n) →
      porkbunCheckAvailability domain supported outcome =
        (⟨domain, false, "porkbun", none, some e⟩, n)) ∧
    (∀ (domain : String) (st : Option RateLimitState) (now : Nat)
        (resp : HttpPayload DomainrStatusResponse),
      resp.isOk = false → resp.status ≠ 429 →
      domainrCheckAvailability domain (fun _ => .resp resp) st now =
        (⟨domain, false, "domainr", none,
          some ("HTTP " ++ toString resp.status ++ ": " ++
            resp.statusText)⟩, st, 1)) ∧
    (∀ (domain : String) (st : Option RateLimitState) (now : Nat)
        (m : String),
      domainrCheckAvailability domain (fun _ => .resp ⟨200, "OK", .error m⟩)
        st now =
        (⟨domain, false, "domainr", none, some m⟩, none, 1)) ∧
    (∀ (domain : String) (supported : List String) (m : String),
      supported.contains (extractTLD domain) = true → m ≠ "" →
      porkbunCheckAvailability domain supported
        (.resp ⟨200, "OK", .ok ⟨"ERROR", some m, none⟩⟩) =
        (⟨domain, false, "porkbun", none, some m⟩, 1)) ∧
    (∀ (domain : String) (now : Nat) (msgs : Nat → String),
      (domainrCheckAvailability domain (fun i => .thrown (msgs i))
        none now).1 =
        ⟨domain, false, "domainr", none, some (msgs 3)⟩) ∧
    (∀ (domain : String) (supported : List String) (m : String),
      supported.contains (extractTLD domain) = true →
      porkbunCheckAvailability domain supported (.thrown m) =
        (⟨domain, false, "porkbun", none, some m⟩, 1)) := by
  refine ⟨?_, ?_, ?_, ?_, ?_, ?_, ?_⟩
  · intro domain script st now e st1 n h
    simp [domainrCheckAvailability, h]
  · intro domain supported outcome e n h
    simp [porkbunCheckAvailability, h]
  · intro domain st now resp hok hrl
    have hmk := makeRequest_passthrough_other_status (fun _ => .resp resp)
      now 0 MAX_RETRIES st resp rfl hok hrl
    simp [domainrCheckAvailability, domainrCheckCore, makeRequest, hmk,
      interpretDomainrResponse, hok]
  · intro domain st now m
    rfl
  · intro domain supported m hsup hm
    replace hsup : extractTLD domain ∈ supported := by simpa using hsup
    simp [porkbunCheckAvailability, porkbunCheckCore, hsup,
      HttpPayload.isOk, jsStringOr, hm]
  · intro domain now msgs
    rfl
  · intro domain supported m hsup
    replace hsup : extractTLD domain ∈ supported := by simpa using hsup
    simp [porkbunCheckAvailability, porkbunCheckCore, hsup]

/-- Witness for C2: each failure-mode conjunct instantiated at a concrete
input — four exhausted network throws, a Porkbun network throw, a 500
response, and a Porkbun ERROR-status payload. -/
theorem checkAvailability_total_witness :
    domainrCheckAvailability "a.com" (fun _ => .thrown "connection reset")
        none 0 =
      (⟨"a.com", false, "domainr", none, some "connection reset"⟩,
        some ⟨4, 8000, 0⟩, 4) ∧
    porkbunCheckAvailability "a.com" ["com"] (.thrown "connection reset") =
      (⟨"a.com", false, "porkbun", none, some "connection reset"⟩, 1) ∧
    domainrCheckAvailability "a.com"
        (fun _ => .resp ⟨500, "Internal Server Error", .error "unread"⟩)
        none 0 =
      (⟨"a.com", false, "domainr", none,
        some ("HTTP " ++ toString (500 : Nat) ++ ": " ++
          "Internal Server Error")⟩, none, 1) ∧
    porkbunCheckAvailability "a.com" ["com"]
        (.resp ⟨200, "OK", .ok ⟨"ERROR", some "Invalid API key", none⟩⟩) =
      (⟨"a.com", false, "porkbun", none, some "Invalid API key"⟩, 1) :=
  ⟨checkAvailability_total.1 "a.com" (fun _ => .thrown "connection reset")
      none 0 "connection reset" (some ⟨4, 8000, 0⟩) 4 rfl,
   checkAvailability_total.2.2.2.2.2.2 "a.com" ["com"] "connection reset"
      (by decide),
   checkAvailability_total.2.2.1 "a.com" none 0
      ⟨500, "Internal Server Error", .error "unread"⟩ rfl (by decide),
   checkAvailability_total.2.2.2.2.1 "a.com" ["com"] "Invalid API key"
      (by decide) (by decide)⟩

/-- C4 counterexample: an available-domain response with
`firstYearPromo = "yes"` whose promotional price (10) equals the regular
price (10) still gets `firstYear` populated — the code never compares the two,
contradicting the claim that `firstYear` is populated only when the
promotional value differs from the regular price. -/
theorem porkbun_firstYear_counterexample :
    ((porkbunCheckAvailability "example.com" ["com"]
      (.resp ⟨200, "OK", .ok ⟨"SUCCESS", none,
        some ⟨"yes", "registration", 10, 10, "yes", "no", none⟩⟩⟩)).1).pricing =
    some ⟨10, 10, some 10, "USD"⟩ := by decide

/-- C4 as amended: in every successful Porkbun availability result,
`firstYear` is populated exactly when the provider's promotional first-year
flag is `"yes"` (with the promotional price as its value, which may equal the
regular price); it is omitted exactly when the flag is not `"yes"`. -/
theorem porkbun_firstYear_promo_flag (domain : String)
    (supported : List String) (message : Option String)
    (r : PorkbunResponseData)
    (hsup : supported.contains (extractTLD domain) = true)
    (havail : r.avail = "yes") :
    porkbunCheckAvailability domain supported
      (.resp ⟨200, "OK", .ok ⟨"SUCCESS", message, some r⟩⟩) =
    (⟨domain, true, "porkbun",
      some ⟨r.regularPrice,
        (match r.additional with
         | some a => a.renewal.price
         | none => r.regularPrice),
        (if r.firstYearPromo = "yes" then some r.price else none),
        "USD"⟩, none⟩, 1) := by
  replace hsup : extractTLD domain ∈ supported := by simpa using hsup
  simp [porkbunCheckAvailability, porkbunCheckCore, hsup, HttpPayload.isOk,
    havail]

/-- Witness for C4's amended theorem: a supported `.com` domain reported
available with the promo flag set and promo price 5 against regular price
10. -/
theorem porkbun_firstYear_promo_flag_witness :
    porkbunCheckAvailability "example.com" ["com"]
      (.resp ⟨200, "OK", .ok ⟨"SUCCESS", none,
        some ⟨"yes", "registration", 5, 10, "yes", "no", none⟩⟩⟩) =
    (⟨"example.com", true, "porkbun", some ⟨10, 10, some 5, "USD"⟩, none⟩,
      1) := by
  have h := porkbun_firstYear_promo_flag "example.com" ["com"] none
    ⟨"yes", "registration", 5, 10, "yes", "no", none⟩ (by decide) rfl
  simpa using h

/-- C6: when a provider's supported-TLD list is non-empty and the domain's
extracted TLD is not on it, `checkAvailability` short-circuits with
`available = false` and a "TLD not supported" error, making zero calls to the
availability endpoint — for the Porkbun and the Cloudflare client alike. The
error strings mention TLD support. -/
theorem tld_gate_short_circuit :
    (∀ (domain : String) (supported : List String)
        (outcome : FetchOutcome PorkbunAvailabilityResponse),
      supported ≠ [] → supported.contains (extractTLD domain) = false →
      porkbunCheckAvailability domain supported outcome =
        (⟨domain, false, "porkbun", none,
          some "TLD not supported by Porkbun"⟩, 0)) ∧
    (∀ (domain : String) (supported : List String)
        (availOutcome :
          Except String (CloudflareResponse CloudflareAvailabilityResult))
        (pricingOutcome :
          Except String (CloudflareResponse CloudflarePricingResult)),
      supported ≠ [] → supported.contains (extractTLD domain) = false →
      cloudflareCheckAvailability domain supported availOutcome
          pricingOutcome =
        (⟨domain, false, "cloudflare", none,
          some "TLD not supported by Cloudflare"⟩, 0)) ∧
    strContains "TLD not supported by Porkbun" "TLD" = true ∧
    strContains "TLD not supported by Cloudflare" "TLD" = true := by
  refine ⟨?_, ?_, by decide, by decide⟩
  · intro domain supported outcome _hne hsup
    replace hsup : extractTLD domain ∉ supported := by simpa using hsup
    simp [porkbunCheckAvailability, porkbunCheckCore, hsup]
  · intro domain supported availOutcome pricingOutcome _hne hsup
    replace hsup : extractTLD domain ∉ supported := by simpa using hsup
    simp [cloudflareCheckAvailability, cloudflareCheckCore, hsup]

/-- Witness for C6: `example.xyz` against a supported list holding only
`com`, for both providers. -/
theorem tld_gate_short_circuit_witness :
    porkbunCheckAvailability "example.xyz" ["com"] (.thrown "unused") =
      (⟨"example.xyz", false, "porkbun", none,
        some "TLD not supported by Porkbun"⟩, 0) ∧
    cloudflareCheckAvailability "example.xyz" ["com"] (.error "unused")
        (.error "unused") =
      (⟨"example.xyz", false, "cloudflare", none,
        some "TLD not supported by Cloudflare"⟩, 0) :=
  ⟨tld_gate_short_circuit.1 "example.xyz" ["com"] (.thrown "unused")
      (by decide) (by decide),
   tld_gate_short_circuit.2.1 "example.xyz" ["com"] (.error "unused")
      (.error "unused") (by decide) (by decide)⟩

/-- C9: formatting an available result priced
`{registration: 10.00, renewal: 15.00, firstYear: 5.00, currency: "USD"}`
renders exactly
`"example.com is available!\n$15.00 / yr ($5.00 first year) (Porkbun)"`,
which contains the substrings `$15.00`, `/ yr`, `$5.00` and `first year`. -/
theorem formatResult_pricing_substrings :
    formatResult ⟨"example.com", true, "porkbun",
        some ⟨10, 15, some 5, "USD"⟩, none⟩ =
      "example.com is available!\n$15.00 / yr ($5.00 first year) (Porkbun)" ∧
    strContains (formatResult ⟨"example.com", true, "porkbun",
        some ⟨10, 15, some 5, "USD"⟩, none⟩) "$15.00" = true ∧
    strContains (formatResult ⟨"example.com", true, "porkbun",
        some ⟨10, 15, some 5, "USD"⟩, none⟩) "/ yr" = true ∧
    strContains (formatResult ⟨"example.com", true, "porkbun",
        some ⟨10, 15, some 5, "USD"⟩, none⟩) "$5.00" = true ∧
    strContains (formatResult ⟨"example.com", true, "porkbun",
        some ⟨10, 15, some 5, "USD"⟩, none⟩) "first year" = true := by
  refine ⟨by decide, by decide, by decide, by decide, by decide⟩

/-- Helper: every result the `try` block of the Domainr client returns has
`provider = "domainr"`. -/
theorem interpretDomainrResponse_provider (domain : String)
    (res : Except String (HttpPayload DomainrStatusResponse))
    (r : DomainCheckResult)
    (h : interpretDomainrResponse domain res = .ok r) :
    r.provider = "domainr" := by
  unfold interpretDomainrResponse at h
  repeat' split at h
  all_goals cases h
  all_goals rfl

/-- The provided lib/types.ts revision types `provider` with the string
literal `"domainr"`: the Domainr client's `checkAvailability` only ever
constructs results whose `provider` is that string, whichever path (success,
unknown status, or caught throw) produced them. -/
theorem domainrCheck_provider_literal (domain : String)
    (script : Nat → FetchOutcome DomainrStatusResponse)
    (st : Option RateLimitState) (now : Nat) :
    ((domainrCheckAvailability domain script st now).1).provider =
      "domainr" := by
  have hcore : (domainrCheckCore domain script st now).1 =
      interpretDomainrResponse domain (makeRequest script now st).1 := rfl
  simp only [domainrCheckAvailability]
  cases h : (domainrCheckCore domain script st now).1 with
  | error e => simp [h]
  | ok r =>
      rw [hcore] at h
      simpa [h] using
        interpretDomainrResponse_provider domain (makeRequest script now st).1
          r h
